import Mathlib

/-!
Verification of the narrative-simulation coordinator (movie_simulator).

Shallow embedding of the Python sources:
  * `src/movie_simulator/core/models/story_models.py`   (data model)
  * `src/movie_simulator/core/tools/scene_tools.py`     (scene session manager)
  * `src/movie_simulator/core/tools/progression_tools.py` (story progression)
  * `src/autonomous_storytelling.py`                    (coordinator loop)
Python `float` is embedded as `ℚ`; Python dicts keyed by strings are embedded
as association lists; tool functions become pure state-passing functions of
type `MovieContext → Result × MovieContext`.
-/

namespace MovieSim

/-- Embedding of `StoryGenre` (story_models.py). -/
inductive StoryGenre where
  | mystery
  | romance
  | thriller
  | comedy
  | drama
  | science_fiction
  | fantasy
  deriving Repr, DecidableEq

/-- Embedding of `CharacterRole` (story_models.py). -/
inductive CharacterRole where
  | protagonist
  | antagonist
  | supporting
  | minor
  deriving Repr, DecidableEq

/-- Embedding of `CharacterProfile` (story_models.py).  The `relationships`
dict is an association list.  The `__post_init__` validation (non-empty name,
at least one personality trait) holds for every concrete profile used below. -/
structure CharacterProfile where
  id : String
  name : String
  background : String
  personality_traits : List String
  secrets : List String
  primary_motivation : String
  secondary_goals : List String
  fears : List String
  relationships : List (String × String)
  story_role : CharacterRole
  deriving Repr, DecidableEq

/-- Embedding of `StoryState` (story_models.py): the five scalar metrics are
rationals, everything else is carried verbatim. -/
structure StoryState where
  title : String
  genre : StoryGenre
  setting : String
  timeline : List String
  current_beat : String
  dramatic_tension : ℚ
  setup_progress : ℚ
  conflict_progress : ℚ
  character_arc_progress : ℚ
  resolution_readiness : ℚ
  deriving Repr, DecidableEq

/-- Embedding of `SceneContext` (story_models.py). -/
structure SceneContext where
  location : String
  time_period : String
  mood : String
  present_characters : List String
  scene_objectives : List String
  dramatic_tension_target : ℚ
  deriving Repr, DecidableEq

/-- Embedding of `MovieContext` (story_models.py).  `characters` is the dict
`id → CharacterProfile` as an association list; the wall-clock field
`current_time` is not represented. -/
structure MovieContext where
  story_state : StoryState
  characters : List (String × CharacterProfile)
  current_scene : Option SceneContext
  deriving Repr, DecidableEq

/-- Result of `start_new_scene` (scene_tools.py): the `charactersNotFound`
constructor is the failure dict (its `error` string lists exactly
`missing_characters`); `ok` carries the fields of the success dict. -/
inductive StartSceneResult where
  | charactersNotFound (missing_characters : List String)
      (available_characters : List String)
  | ok (scene_id location mood : String)
      (present_characters objectives : List String)
      (tension_target story_tension conflict_progress : ℚ)
  deriving Repr, DecidableEq

/-- Success flag of a `start_new_scene` result dict. -/
def StartSceneResult.success : StartSceneResult → Bool
  | .charactersNotFound _ _ => false
  | .ok _ _ _ _ _ _ _ _ => true

/-- Embedding of `start_new_scene` (scene_tools.py).  Validation precedes all
mutation; on success the scene becomes current, `dramatic_tension` is set to
the (unclamped) target and the two objective-membership bumps are applied. -/
def start_new_scene (ctx : MovieContext) (scene_id location mood : String)
    (present_characters scene_objectives : List String)
    (dramatic_tension_target : ℚ) (time_period : String) :
    StartSceneResult × MovieContext :=
  let missing_characters :=
    present_characters.filter (fun char_id => (ctx.characters.lookup char_id).isNone)
  if missing_characters ≠ [] then
    (.charactersNotFound missing_characters (ctx.characters.map Prod.fst), ctx)
  else
    let scene_context : SceneContext :=
      { location := location
        time_period := time_period
        mood := mood
        present_characters := present_characters
        scene_objectives := scene_objectives
        dramatic_tension_target := dramatic_tension_target }
    let ss := ctx.story_state
    let ss := { ss with dramatic_tension := dramatic_tension_target }
    let ss :=
      if ["investigation", "interrogation", "search"].any
          (fun obj => scene_objectives.contains obj) then
        { ss with conflict_progress := min 1 (ss.conflict_progress + (2/10)) }
      else ss
    let ss :=
      if ["resolution", "confession", "reveal"].any
          (fun obj => scene_objectives.contains obj) then
        { ss with resolution_readiness := min 1 (ss.resolution_readiness + (3/10)) }
      else ss
    (.ok scene_id location mood present_characters scene_objectives
        dramatic_tension_target ss.dramatic_tension ss.conflict_progress,
      { ctx with current_scene := some scene_context, story_state := ss })

/-- Tension-update table of `manage_character_turn` (scene_tools.py):
`tension_updates.get(interaction_type, 0.05)`. -/
def tension_updates (interaction_type : String) : ℚ :=
  if interaction_type = "revelation" then (25/100)
  else if interaction_type = "confrontation" then (3/10)
  else if interaction_type = "accusation" then (35/100)
  else if interaction_type = "confession" then (4/10)
  else if interaction_type = "dialogue" then (5/100)
  else if interaction_type = "investigation" then (1/10)
  else (5/100)

/-- Result of `manage_character_turn` (scene_tools.py).  The `ok` constructor
carries exactly the keys of the success dict: there is no turn number and no
turn record among them. -/
inductive TurnResult where
  | noActiveScene
  | characterNotFound (character_id : String) (available_characters : List String)
  | characterNotInScene (character_id : String) (present_characters : List String)
  | targetNotFound (target_character : String)
  | targetNotInScene (target_character : String)
  | ok (current_speaker : String) (target_character : Option String)
      (interaction_type : String) (scene_location scene_mood : String)
      (present_characters : List String)
      (story_tension character_arc_progress : ℚ)
  deriving Repr, DecidableEq

/-- Success flag of a `manage_character_turn` result dict. -/
def TurnResult.success : TurnResult → Bool
  | .ok _ _ _ _ _ _ _ _ => true
  | _ => false

/-- Embedding of `manage_character_turn` (scene_tools.py).  The guard
`if target_character:` is Python truthiness, so a `none` or empty-string
target skips target validation. -/
def manage_character_turn (ctx : MovieContext) (character_id : String)
    (interaction_type : String) (target_character : Option String) :
    TurnResult × MovieContext :=
  match ctx.current_scene with
  | none => (.noActiveScene, ctx)
  | some scene =>
    if (ctx.characters.lookup character_id).isNone then
      (.characterNotFound character_id (ctx.characters.map Prod.fst), ctx)
    else if ¬ scene.present_characters.contains character_id then
      (.characterNotInScene character_id scene.present_characters, ctx)
    else
      let target_check : Option TurnResult :=
        match target_character with
        | none => none
        | some t =>
          if t = "" then none
          else if (ctx.characters.lookup t).isNone then some (.targetNotFound t)
          else if ¬ scene.present_characters.contains t then
            some (.targetNotInScene t)
          else none
      match target_check with
      | some err => (err, ctx)
      | none =>
        let tension_increase := tension_updates interaction_type
        let ss := ctx.story_state
        let ss := { ss with
          dramatic_tension := min 1 (ss.dramatic_tension + tension_increase) }
        let ss :=
          if interaction_type = "revelation" ∨ interaction_type = "confrontation"
              ∨ interaction_type = "confession" then
            { ss with
              character_arc_progress := min 1 (ss.character_arc_progress + (15/100)) }
          else ss
        (.ok character_id target_character interaction_type scene.location
            scene.mood scene.present_characters ss.dramatic_tension
            ss.character_arc_progress,
          { ctx with story_state := ss })

/-- The target-validation precondition of `manage_character_turn`: no target,
a Python-falsy empty-string target, or a registered target present in the
scene. -/
def target_ok (ctx : MovieContext) (scene : SceneContext) :
    Option String → Prop
  | none => True
  | some t => t = "" ∨ ((ctx.characters.lookup t).isSome = true
      ∧ scene.present_characters.contains t = true)

/-- Mood-to-tension table of `update_scene_context` (scene_tools.py); `none`
models a mood absent from the dict. -/
def mood_tension (mood : String) : Option ℚ :=
  if mood = "tense" then some (8/10)
  else if mood = "dramatic" then some (9/10)
  else if mood = "suspenseful" then some (85/100)
  else if mood = "calm" then some (3/10)
  else if mood = "peaceful" then some (2/10)
  else if mood = "neutral" then some (5/10)
  else if mood = "confrontational" then some (95/100)
  else if mood = "mysterious" then some (7/10)
  else none

/-- One entry of the `changes` list built by `update_scene_context`
(scene_tools.py); the formatted strings are modelled structurally. -/
inductive SceneChange where
  | location (old new : String)
  | mood (old new : String)
  | addedCharacter (char_id : String)
  | removedCharacter (char_id : String)
  | addedObjective (objective : String)
  | tensionTarget (old new : ℚ)
  deriving Repr, DecidableEq

/-- Result of `update_scene_context` (scene_tools.py). -/
inductive UpdateSceneResult where
  | noActiveScene
  | ok (changes_made : List SceneChange) (scene_state : SceneContext)
      (story_tension : ℚ)
  deriving Repr, DecidableEq

/-- Success flag of an `update_scene_context` result dict. -/
def UpdateSceneResult.success : UpdateSceneResult → Bool
  | .noActiveScene => false
  | .ok _ _ _ => true

/-- Embedding of `update_scene_context` (scene_tools.py).  Each optional
argument is applied in source order; `if location:` / `if mood:` are Python
truthiness and also skip the empty string, `if add_characters:` over an empty
list is a no-op fold, and the tension-target branch tests `is not None`. -/
def update_scene_context (ctx : MovieContext)
    (location mood : Option String)
    (add_characters remove_characters add_objectives : Option (List String))
    (dramatic_tension_target : Option ℚ) :
    UpdateSceneResult × MovieContext :=
  match ctx.current_scene with
  | none => (.noActiveScene, ctx)
  | some scene0 =>
    let st0 : SceneContext × StoryState × List SceneChange :=
      (scene0, ctx.story_state, [])
    -- Update location
    let st1 :=
      match location with
      | some l =>
        if l ≠ "" ∧ l ≠ st0.1.location then
          ({ st0.1 with location := l }, st0.2.1,
            st0.2.2 ++ [SceneChange.location st0.1.location l])
        else st0
      | none => st0
    -- Update mood (and story tension if the mood is recognized)
    let st2 :=
      match mood with
      | some m =>
        if m ≠ "" ∧ m ≠ st1.1.mood then
          let ss :=
            match mood_tension m with
            | some t => { st1.2.1 with dramatic_tension := t }
            | none => st1.2.1
          ({ st1.1 with mood := m }, ss, st1.2.2 ++ [SceneChange.mood st1.1.mood m])
        else st1
      | none => st1
    -- Add characters
    let st3 :=
      (add_characters.getD []).foldl
        (fun st char_id =>
          if (ctx.characters.lookup char_id).isSome
              ∧ ¬ st.1.present_characters.contains char_id then
            ({ st.1 with present_characters := st.1.present_characters ++ [char_id] },
              st.2.1, st.2.2 ++ [SceneChange.addedCharacter char_id])
          else st)
        st2
    -- Remove characters (Python list.remove drops the first occurrence)
    let st4 :=
      (remove_characters.getD []).foldl
        (fun st char_id =>
          if st.1.present_characters.contains char_id then
            ({ st.1 with present_characters := st.1.present_characters.erase char_id },
              st.2.1, st.2.2 ++ [SceneChange.removedCharacter char_id])
          else st)
        st3
    -- Add objectives
    let st5 :=
      (add_objectives.getD []).foldl
        (fun st objective =>
          if ¬ st.1.scene_objectives.contains objective then
            ({ st.1 with scene_objectives := st.1.scene_objectives ++ [objective] },
              st.2.1, st.2.2 ++ [SceneChange.addedObjective objective])
          else st)
        st4
    -- Update tension target (unclamped direct assignment to story tension)
    let st6 :=
      match dramatic_tension_target with
      | some t =>
        ({ st5.1 with dramatic_tension_target := t },
          { st5.2.1 with dramatic_tension := t },
          st5.2.2 ++ [SceneChange.tensionTarget st5.1.dramatic_tension_target t])
      | none => st5
    (.ok st6.2.2 st6.1 st6.2.1.dramatic_tension,
      { ctx with current_scene := some st6.1, story_state := st6.2.1 })

/-- Embedding of the `StoryBeat` enum (progression_tools.py). -/
inductive StoryBeat where
  | setup
  | inciting_incident
  | first_plot_point
  | rising_action
  | midpoint
  | second_plot_point
  | climax
  | falling_action
  | resolution
  deriving Repr, DecidableEq

/-- The `.value` string of a `StoryBeat` (progression_tools.py). -/
def StoryBeat.value : StoryBeat → String
  | .setup => "setup"
  | .inciting_incident => "inciting_incident"
  | .first_plot_point => "first_plot_point"
  | .rising_action => "rising_action"
  | .midpoint => "midpoint"
  | .second_plot_point => "second_plot_point"
  | .climax => "climax"
  | .falling_action => "falling_action"
  | .resolution => "resolution"

/-- The `genre_progressions` dict of `StoryProgressionManager.__init__`
(progression_tools.py); `none` models a genre absent from the dict. -/
def genre_progressions (genre : StoryGenre) : Option (List StoryBeat) :=
  match genre with
  | .mystery => some [.setup, .inciting_incident, .first_plot_point,
      .rising_action, .midpoint, .second_plot_point, .climax, .resolution]
  | .romance => some [.setup, .inciting_incident, .first_plot_point,
      .rising_action, .midpoint, .second_plot_point, .climax, .resolution]
  | .thriller => some [.setup, .inciting_incident, .first_plot_point,
      .rising_action, .midpoint, .second_plot_point, .climax, .resolution]
  | _ => none

/-- The `default_progression` list of `StoryProgressionManager.__init__`
(progression_tools.py). -/
def default_progression : List StoryBeat :=
  [.setup, .inciting_incident, .first_plot_point, .rising_action,
    .midpoint, .second_plot_point, .climax, .resolution]

/-- Embedding of `StoryProgressionManager.get_story_progression`
(progression_tools.py).  The manager's `_context` field is the `Option`
argument. -/
def get_story_progression : Option MovieContext → List String
  | none => default_progression.map StoryBeat.value
  | some ctx =>
    ((genre_progressions ctx.story_state.genre).getD default_progression).map
      StoryBeat.value

/-- Embedding of `StoryProgressionManager._update_progression_metrics`
(progression_tools.py): the per-beat table assigns absolute metric values via
`setattr`. -/
def update_progression_metrics (ss : StoryState) (beat : String) : StoryState :=
  if beat = "setup" then
    { ss with setup_progress := (8/10), conflict_progress := (1/10) }
  else if beat = "inciting_incident" then
    { ss with setup_progress := (1 : ℚ), conflict_progress := (3/10) }
  else if beat = "first_plot_point" then
    { ss with conflict_progress := (5/10), character_arc_progress := (2/10) }
  else if beat = "rising_action" then
    { ss with conflict_progress := (7/10), character_arc_progress := (4/10) }
  else if beat = "midpoint" then
    { ss with conflict_progress := (8/10), character_arc_progress := (6/10) }
  else if beat = "second_plot_point" then
    { ss with conflict_progress := (9/10), character_arc_progress := (8/10) }
  else if beat = "climax" then
    { ss with conflict_progress := (1 : ℚ), character_arc_progress := (9/10), resolution_readiness := (8/10) }
  else if beat = "falling_action" then
    { ss with resolution_readiness := (9/10) }
  else if beat = "resolution" then
    { ss with resolution_readiness := (1 : ℚ) }
  else ss

/-- Embedding of `StoryProgressionManager.advance_story_beat`
(progression_tools.py).  An unknown current beat restarts at
`progression[0]`; at the last index the call returns `false` and leaves the
context untouched.  All progression tables are non-empty, so the `getD`
defaults are never taken. -/
def advance_story_beat : Option MovieContext → Bool × Option MovieContext
  | none => (false, none)
  | some ctx =>
    let current_beat := ctx.story_state.current_beat
    let progression := get_story_progression (some ctx)
    if ¬ progression.contains current_beat then
      let next_beat := progression.getD 0 ""
      let ss := { ctx.story_state with current_beat := next_beat }
      (true, some { ctx with story_state := update_progression_metrics ss next_beat })
    else
      let current_index := progression.indexOf current_beat
      if progression.length - 1 ≤ current_index then
        (false, some ctx)
      else
        let next_beat := progression.getD (current_index + 1) ""
        let ss := { ctx.story_state with current_beat := next_beat }
        (true, some { ctx with story_state := update_progression_metrics ss next_beat })

/-- The context produced by a successful beat advance: `current_beat` is set
to `next_beat` and the per-beat metric table is applied (the two mutations of
`advance_story_beat` / `set_story_beat`). -/
def advance_to (ctx : MovieContext) (next_beat : String) : MovieContext :=
  let ss := { ctx.story_state with current_beat := next_beat }
  { ctx with story_state := update_progression_metrics ss next_beat }

/-- Iterates `advance_story_beat`, collecting the returned success flags (the
10-call scenario of the spec). -/
def advanceTimes : Nat → Option MovieContext → List Bool × Option MovieContext
  | 0, c => ([], c)
  | n + 1, c =>
    let step := advance_story_beat c
    let rest := advanceTimes n step.2
    (step.1 :: rest.1, rest.2)

/-- The current beat of an optional context (empty string when absent). -/
def currentBeatOf : Option MovieContext → String
  | none => ""
  | some ctx => ctx.story_state.current_beat

/-- Embedding of `StoryProgressionManager.adjust_dramatic_tension`
(progression_tools.py): clamps `old + change` into `[0, 1]` and always
reports success when a context is set. -/
def adjust_dramatic_tension (change : ℚ) :
    Option MovieContext → Bool × Option MovieContext
  | none => (false, none)
  | some ctx =>
    let old_tension := ctx.story_state.dramatic_tension
    let new_tension := max 0 (min 1 (old_tension + change))
    (true, some { ctx with
      story_state := { ctx.story_state with dramatic_tension := new_tension } })

/-- Embedding of `StoryProgressionManager.set_dramatic_tension`
(progression_tools.py): rejects values outside `[0, 1]` (returns `false`
without mutating), otherwise stores the value as given. -/
def set_dramatic_tension (tension : ℚ) :
    Option MovieContext → Bool × Option MovieContext
  | none => (false, none)
  | some ctx =>
    if ¬ (0 ≤ tension ∧ tension ≤ 1) then (false, some ctx)
    else
      (true, some { ctx with
        story_state := { ctx.story_state with dramatic_tension := tension } })

/-- Python `str.lower()` (ASCII case folding as in `Char.toLower`), written
over the character list so that it evaluates by kernel reduction. -/
def strToLower (s : String) : String := String.mk (s.data.map Char.toLower)

/-- Helper for `strContains`: does `needle` occur as a contiguous block in
the character list? -/
def charsContain (needle : List Char) : List Char → Bool
  | [] => needle.isEmpty
  | c :: rest => needle.isPrefixOf (c :: rest) || charsContain needle rest

/-- Python `needle in haystack` on strings: substring containment. -/
def strContains (haystack needle : String) : Bool :=
  charsContain needle.toList haystack.toList

/-- Embedding of
`AutonomousMovieSimulation._analyze_ai_response_and_update_story`
(autonomous_storytelling.py): keyword buckets tested in `elif` order on the
lower-cased response, then an unconditional character-arc bump. -/
def analyze_ai_response_and_update_story (ai_response : String)
    (ss : StoryState) : StoryState × String :=
  let response_lower := strToLower ai_response
  let checked :=
    if ["arrest", "guilty", "confess", "evidence"].any
        (fun word => strContains response_lower word) then
      ({ ss with resolution_readiness := min 1 (ss.resolution_readiness + (3/10)) },
        "major resolution advancement")
    else if ["investigate", "question", "examine", "clue"].any
        (fun word => strContains response_lower word) then
      ({ ss with conflict_progress := min 1 (ss.conflict_progress + (2/10)) },
        "investigation progress")
    else if ["secret", "reveal", "truth", "hidden"].any
        (fun word => strContains response_lower word) then
      ({ ss with dramatic_tension := min 1 (ss.dramatic_tension + (2/10)) },
        "secret revelation increases tension")
    else if ["scared", "afraid", "nervous", "worried"].any
        (fun word => strContains response_lower word) then
      ({ ss with dramatic_tension := min 1 (ss.dramatic_tension + (1/10)) },
        "emotional tension increase")
    else (ss, "neutral")
  ({ checked.1 with
      character_arc_progress := min 1 (checked.1.character_arc_progress + (1/10)) },
    checked.2)

/-- The `conclusion_keywords` list of
`_should_story_conclude_from_ai_interactions` (autonomous_storytelling.py). -/
def conclusion_keywords : List String :=
  ["case closed", "arrested", "solved", "justice", "guilty", "confession"]

/-- The last `n` elements of a list (Python `l[-n:]`). -/
def lastN (n : Nat) (l : List String) : List String :=
  l.drop (l.length - n)

/-- Embedding of
`AutonomousMovieSimulation._should_story_conclude_from_ai_interactions`
(autonomous_storytelling.py), with the last-three response texts passed in as
`recent_responses`. -/
def should_story_conclude (ss : StoryState) (recent_responses : List String)
    (interaction_count : Nat) : Bool :=
  if ((8/10) : ℚ) ≤ ss.resolution_readiness then true
  else if ((9/10) : ℚ) ≤ ss.conflict_progress
      ∧ ((7/10) : ℚ) ≤ ss.character_arc_progress ∧ 15 ≤ interaction_count then true
  else
    recent_responses.any (fun response =>
      conclusion_keywords.any (fun keyword =>
        strContains (strToLower response) keyword))

/-- Embedding of the `while interaction_count < self.max_interactions` loop
of `run_real_agent_interactions` (autonomous_storytelling.py).  `resp n` is
the opaque AI generator's response at interaction `n`; `fuel` counts the
iterations still allowed by the guard (`max_interactions - interaction_count`).
Returns the number of interactions performed and the final story state. -/
def run_ai_loopAux (resp : Nat → String) :
    Nat → Nat → StoryState → List String → Nat × StoryState
  | 0, interaction_count, ss, _story_events => (interaction_count, ss)
  | fuel + 1, interaction_count, ss, story_events =>
    let ai_response := resp interaction_count
    let ss' := (analyze_ai_response_and_update_story ai_response ss).1
    let story_events' := story_events ++ [ai_response]
    if should_story_conclude ss' (lastN 3 story_events') interaction_count then
      (interaction_count + 1, ss')
    else
      run_ai_loopAux resp fuel (interaction_count + 1) ss' story_events'

/-- The coordinator loop started at interaction count 0 with an empty event
log (autonomous_storytelling.py, `run_real_agent_interactions`). -/
def run_ai_interaction_loop (resp : Nat → String) (max_interactions : Nat)
    (ss : StoryState) : Nat × StoryState :=
  run_ai_loopAux resp max_interactions 0 ss []

/-- The story state after the loop has processed the first `n` responses. -/
def loopState (resp : Nat → String) (ss : StoryState) : Nat → StoryState
  | 0 => ss
  | n + 1 =>
    (analyze_ai_response_and_update_story (resp n) (loopState resp ss n)).1

/-- The event log after the loop has processed the first `n` responses. -/
def loopEvents (resp : Nat → String) (n : Nat) : List String :=
  (List.range n).map resp

/-- The break test evaluated at the end of loop iteration `n` (0-based):
`_should_story_conclude_from_ai_interactions` on the state and log after
`n + 1` responses, with `interaction_count = n`. -/
def loopConcludes (resp : Nat → String) (ss : StoryState) (n : Nat) : Bool :=
  should_story_conclude (loopState resp ss (n + 1))
    (lastN 3 (loopEvents resp (n + 1))) n

/-- Modelled from the spec: the relationship store of the memory system
(`MEMORY_SYSTEM`), whose `update_relationship` / `get_relationships` methods
are called by `character_tools.py` and asserted on by the test files but are
absent from `src/movie_simulator/core/tools/memory_tools.py`.  Per the spec,
a relationship score is a directed pair `(from_id, to_id) → scalar in
[-1.0, 1.0]`, clamped on every update, and a pair with no stored entry reads
as the neutral `0.0`.  The store is an association list in which the newest
entry for a key shadows older ones. -/
def RelationshipStore : Type := List ((String × String) × ℚ)

/-- Modelled from the spec: reading one directed relationship score; an
unknown pair returns the neutral `0.0` rather than failing. -/
def get_relationship (store : RelationshipStore) (from_id to_id : String) : ℚ :=
  (List.lookup (from_id, to_id) store).getD 0

/-- Modelled from the spec: `update_relationship` adds `change` to the
current directed score and clamps the result to `[-1.0, 1.0]`. -/
def update_relationship (store : RelationshipStore)
    (from_id to_id : String) (change : ℚ) : RelationshipStore :=
  let old_score := get_relationship store from_id to_id
  let new_score := max (-1) (min 1 (old_score + change))
  ((from_id, to_id), new_score) :: store

/-- A sequence of relationship updates `(from_id, to_id, change)` applied to
the empty store. -/
def applyRelationshipUpdates (updates : List (String × String × ℚ)) :
    RelationshipStore :=
  updates.foldl (fun store u => update_relationship store u.1 u.2.1 u.2.2) []

/-- A concrete registered character used by the witnesses. -/
def aliceProfile : CharacterProfile :=
  { id := "alice"
    name := "Alice"
    background := "lab technician"
    personality_traits := ["curious"]
    secrets := ["saw the server logs"]
    primary_motivation := "find the truth"
    secondary_goals := []
    fears := ["being blamed"]
    relationships := []
    story_role := .supporting }

/-- A second registered character used by the witnesses. -/
def bobProfile : CharacterProfile :=
  { id := "bob"
    name := "Bob"
    background := "security chief"
    personality_traits := ["guarded"]
    secrets := []
    primary_motivation := "protect the company"
    secondary_goals := []
    fears := []
    relationships := []
    story_role := .antagonist }

/-- A concrete story state: mystery genre at beat `setup`, tension `0.5`,
all four progress metrics at `0`. -/
def exStoryState : StoryState :=
  { title := "Murder at TechNova"
    genre := .mystery
    setting := "TechNova headquarters"
    timeline := []
    current_beat := "setup"
    dramatic_tension := (5/10)
    setup_progress := 0
    conflict_progress := 0
    character_arc_progress := 0
    resolution_readiness := 0 }

/-- A concrete active scene containing `alice` and `bob`. -/
def exScene : SceneContext :=
  { location := "server room"
    time_period := "current"
    mood := "tense"
    present_characters := ["alice", "bob"]
    scene_objectives := []
    dramatic_tension_target := (5/10) }

/-- A concrete movie context with two registered characters and an active
scene. -/
def exCtx : MovieContext :=
  { story_state := exStoryState
    characters := [("alice", aliceProfile), ("bob", bobProfile)]
    current_scene := some exScene }

/-- The same context with no active scene. -/
def exCtxNoScene : MovieContext := { exCtx with current_scene := none }

/-- A context whose current beat is not a member of its genre progression. -/
def exCtxUnknownBeat : MovieContext :=
  { exCtx with story_state := { exStoryState with current_beat := "nowhere" } }

/-! Theorems. -/

/-- C3: if `start_new_scene` is called with a present-characters list
containing at least one id not in the character registry, it returns the
failure result naming exactly the missing ids, and the context is returned
unchanged: no scene is created, the active scene stays as it was and no
story metric moves. -/
theorem start_new_scene_unknown_characters_fail_no_mutation
    (ctx : MovieContext) (scene_id location mood : String)
    (present_characters scene_objectives : List String)
    (dramatic_tension_target : ℚ) (time_period : String)
    (h : present_characters.filter
        (fun char_id => (ctx.characters.lookup char_id).isNone) ≠ []) :
    start_new_scene ctx scene_id location mood present_characters
        scene_objectives dramatic_tension_target time_period =
      (StartSceneResult.charactersNotFound
          (present_characters.filter
            (fun char_id => (ctx.characters.lookup char_id).isNone))
          (ctx.characters.map Prod.fst),
        ctx) ∧
    (start_new_scene ctx scene_id location mood present_characters
        scene_objectives dramatic_tension_target time_period).1.success = false := by
  have heq :
      start_new_scene ctx scene_id location mood present_characters
          scene_objectives dramatic_tension_target time_period =
        (StartSceneResult.charactersNotFound
            (present_characters.filter
              (fun char_id => (ctx.characters.lookup char_id).isNone))
            (ctx.characters.map Prod.fst),
          ctx) := by
    simp only [start_new_scene]
    rw [if_pos h]
  exact ⟨heq, by rw [heq]; rfl⟩

/-- Witness for C3 at a concrete input: `"ghost"` is not registered in
`exCtx`, so the call fails listing `["ghost"]` and returns `exCtx`
untouched. -/
theorem start_new_scene_unknown_characters_fail_no_mutation_witness :
    start_new_scene exCtx "s2" "lab" "calm" ["ghost"] [] 1 "current" =
      (StartSceneResult.charactersNotFound
          (["ghost"].filter
            (fun char_id => (exCtx.characters.lookup char_id).isNone))
          (exCtx.characters.map Prod.fst),
        exCtx) ∧
    (start_new_scene exCtx "s2" "lab" "calm" ["ghost"] [] 1 "current").1.success
      = false :=
  start_new_scene_unknown_characters_fail_no_mutation exCtx "s2" "lab" "calm"
    ["ghost"] [] 1 "current" (by decide)

/-- C1: evaluation of the code at the failing input.  Both `start_new_scene`
and `update_scene_context` assign the raw `dramatic_tension_target` to
`dramatic_tension` without clamping: with target `5`, both calls report
success and leave the stored metric at `5`, which is outside `[0, 1]` —
contradicting the clamping invariant (which `StoryState.__post_init__` and
`MovieContext.update_dramatic_tension` in story_models.py themselves
enforce by raising on out-of-range tension). -/
theorem start_new_scene_stores_unclamped_tension :
    ((start_new_scene exCtx "s1" "lab" "tense" ["alice"] [] 5 "current").1.success
        = true ∧
      (start_new_scene exCtx "s1" "lab" "tense" ["alice"] [] 5
          "current").2.story_state.dramatic_tension = 5) ∧
    ((update_scene_context exCtx none none none none none (some 5)).1.success
        = true ∧
      (update_scene_context exCtx none none none none none
          (some 5)).2.story_state.dramatic_tension = 5) ∧
    ¬ ((5 : ℚ) ≤ 1) :=
  ⟨⟨rfl, rfl⟩, ⟨rfl, rfl⟩, by decide⟩

/-- C5 counterexample: the objective string `"conduct investigation"`
contains `"investigation"` as a substring, yet on a successful
`start_new_scene` the metric `conflict_progress` is not incremented (it
stays `0`, while the claimed increment would give `min 1 (0 + 0.2)`): the
code tests exact list membership (`obj in scene_objectives`), not substring
containment. -/
theorem start_new_scene_substring_trigger_counterexample :
    strContains "conduct investigation" "investigation" = true ∧
    (start_new_scene exCtx "s1" "lab" "tense" ["alice"]
        ["conduct investigation"] 1 "current").1.success = true ∧
    (start_new_scene exCtx "s1" "lab" "tense" ["alice"]
        ["conduct investigation"] 1 "current").2.story_state.conflict_progress
      = 0 ∧
    (0 : ℚ) ≠ min 1 (0 + 2/10) :=
  ⟨by decide, rfl, rfl, by norm_num⟩

/-- C5 (amended): on a successful `start_new_scene`, `conflict_progress` is
incremented by 0.2 (capped at 1.0) exactly when the objectives list contains
one of the exact strings `"investigation"`, `"interrogation"`, `"search"` as
an element, and `resolution_readiness` is incremented by 0.3 (capped at 1.0)
exactly when it contains one of `"resolution"`, `"confession"`, `"reveal"`
as an element; otherwise the two metrics are unchanged. -/
theorem start_new_scene_trigger_membership
    (ctx : MovieContext) (scene_id location mood : String)
    (present_characters scene_objectives : List String)
    (dramatic_tension_target : ℚ) (time_period : String)
    (h : present_characters.filter
        (fun char_id => (ctx.characters.lookup char_id).isNone) = []) :
    (start_new_scene ctx scene_id location mood present_characters
        scene_objectives dramatic_tension_target time_period).1.success = true ∧
    (start_new_scene ctx scene_id location mood present_characters
        scene_objectives dramatic_tension_target
        time_period).2.story_state.conflict_progress =
      (if ["investigation", "interrogation", "search"].any
          (fun obj => scene_objectives.contains obj) then
        min 1 (ctx.story_state.conflict_progress + (2/10))
      else ctx.story_state.conflict_progress) ∧
    (start_new_scene ctx scene_id location mood present_characters
        scene_objectives dramatic_tension_target
        time_period).2.story_state.resolution_readiness =
      (if ["resolution", "confession", "reveal"].any
          (fun obj => scene_objectives.contains obj) then
        min 1 (ctx.story_state.resolution_readiness + (3/10))
      else ctx.story_state.resolution_readiness) := by
  simp only [start_new_scene]
  rw [if_neg (not_not_intro h)]
  cases hc1 : ["investigation", "interrogation", "search"].any
      (fun obj => scene_objectives.contains obj) <;>
    cases hc2 : ["resolution", "confession", "reveal"].any
        (fun obj => scene_objectives.contains obj) <;>
      simp [hc1, hc2, StartSceneResult.success]

/-- Witness for the amended C5 at a concrete input: with objectives
`["investigation"]` (an exact member) the conflict bump fires and the
resolution metric stays put. -/
theorem start_new_scene_trigger_membership_witness :
    (start_new_scene exCtx "s1" "lab" "tense" ["alice"] ["investigation"] 1
        "current").1.success = true ∧
    (start_new_scene exCtx "s1" "lab" "tense" ["alice"] ["investigation"] 1
        "current").2.story_state.conflict_progress =
      (if ["investigation", "interrogation", "search"].any
          (fun obj => (["investigation"] : List String).contains obj) then
        min 1 (exCtx.story_state.conflict_progress + (2/10))
      else exCtx.story_state.conflict_progress) ∧
    (start_new_scene exCtx "s1" "lab" "tense" ["alice"] ["investigation"] 1
        "current").2.story_state.resolution_readiness =
      (if ["resolution", "confession", "reveal"].any
          (fun obj => (["investigation"] : List String).contains obj) then
        min 1 (exCtx.story_state.resolution_readiness + (3/10))
      else exCtx.story_state.resolution_readiness) :=
  start_new_scene_trigger_membership exCtx "s1" "lab" "tense" ["alice"]
    ["investigation"] 1 "current" (by decide)

/-- C2: evaluation of the code at the failing input.  A successful
`manage_character_turn` call returns the success dict — whose fields carry
no turn number — and changes the context only in the story metrics: the
`MovieContext` data model has no turn history, so no `TurnRecord` is
appended anywhere (the repository's own test,
test_phase4_scene_management.py, asserts `turn_number == 1` and a
`TURN_HISTORY` entry for this call). -/
theorem manage_character_turn_no_turn_record :
    manage_character_turn exCtx "alice" "dialogue" none =
      (TurnResult.ok "alice" none "dialogue" "server room" "tense"
          ["alice", "bob"]
          (min 1 (exCtx.story_state.dramatic_tension + tension_updates "dialogue"))
          exCtx.story_state.character_arc_progress,
        { exCtx with story_state := { exCtx.story_state with
            dramatic_tension :=
              min 1 (exCtx.story_state.dramatic_tension
                + tension_updates "dialogue") } }) :=
  rfl

/-- C4: when the current beat sits in the genre progression,
`advance_story_beat` succeeds and moves to the next beat (applying the
per-beat metric table) whenever a next beat exists, and returns failure
leaving the context untouched at the final beat; concretely, from `"setup"`
on the 8-beat progression, calls 1–7 succeed ending at `"resolution"` and
calls 8–10 fail with the beat still `"resolution"`. -/
theorem advance_story_beat_next_and_terminal (ctx : MovieContext)
    (h : (get_story_progression (some ctx)).contains ctx.story_state.current_beat
      = true) :
    ((get_story_progression (some ctx)).indexOf ctx.story_state.current_beat + 1 <
        (get_story_progression (some ctx)).length →
      advance_story_beat (some ctx) =
        (true, some (advance_to ctx ((get_story_progression (some ctx)).getD
          ((get_story_progression (some ctx)).indexOf ctx.story_state.current_beat
            + 1) "")))) ∧
    ((get_story_progression (some ctx)).indexOf ctx.story_state.current_beat + 1 =
        (get_story_progression (some ctx)).length →
      advance_story_beat (some ctx) = (false, some ctx)) ∧
    ((advanceTimes 10 (some exCtx)).1 =
        [true, true, true, true, true, true, true, false, false, false] ∧
      currentBeatOf (advanceTimes 10 (some exCtx)).2 = "resolution") := by
  refine ⟨fun hlt => ?_, fun heq => ?_, rfl, rfl⟩
  · have hn : ¬ ((get_story_progression (some ctx)).length - 1 ≤
        (get_story_progression (some ctx)).indexOf ctx.story_state.current_beat) := by
      omega
    simp only [advance_story_beat]
    rw [if_neg (not_not_intro h)]
    rw [if_neg hn]
    rfl
  · have hl : (get_story_progression (some ctx)).length - 1 ≤
        (get_story_progression (some ctx)).indexOf ctx.story_state.current_beat := by
      omega
    simp only [advance_story_beat]
    rw [if_neg (not_not_intro h)]
    rw [if_pos hl]

/-- Witness for C4 at a concrete input: `exCtx` sits at `"setup"`, index 0 of
the 8-beat mystery progression, so one call advances to the next beat. -/
theorem advance_story_beat_next_and_terminal_witness :
    advance_story_beat (some exCtx) =
      (true, some (advance_to exCtx ((get_story_progression (some exCtx)).getD
        ((get_story_progression (some exCtx)).indexOf
          exCtx.story_state.current_beat + 1) ""))) :=
  (advance_story_beat_next_and_terminal exCtx (by decide)).1 (by decide)

/-- C10: when the current beat is not a member of the genre progression,
`advance_story_beat` does not fail: it succeeds, restarting at
`progression[0]` and applying that beat's metric-table values. -/
theorem advance_story_beat_unknown_beat_restarts (ctx : MovieContext)
    (h : (get_story_progression (some ctx)).contains ctx.story_state.current_beat
      = false) :
    advance_story_beat (some ctx) =
      (true, some (advance_to ctx ((get_story_progression (some ctx)).getD 0 ""))) := by
  simp only [advance_story_beat]
  rw [if_pos (by rw [h]; decide)]
  rfl

/-- C8 counterexample: `set_dramatic_tension 2` does not clamp-and-store:
it returns failure and leaves the tension unchanged (`exCtx`'s tension `0.5`
is not the clamped value `max 0 (min 1 2) = 1`), refuting the claim that
`set_tension` succeeds and stores the clamped result for any numeric
input. -/
theorem set_dramatic_tension_rejects_counterexample :
    set_dramatic_tension 2 (some exCtx) = (false, some exCtx) ∧
    exCtx.story_state.dramatic_tension ≠ max 0 (min 1 2) :=
  ⟨rfl, by norm_num [exCtx, exStoryState]⟩

/-- C8 (amended): with a context set, `adjust_tension(delta)` always succeeds
and stores `old + delta` clamped into `[0, 1]` (so the stored value is in
`[0, 1]` for any delta), while `set_tension(value)` stores `value` and
succeeds exactly when `0 ≤ value ≤ 1`, and otherwise reports failure leaving
the tension unchanged; old and new values are reported on the log. -/
theorem tension_ops_clamp_or_reject (ctx : MovieContext) (change tension : ℚ) :
    (adjust_dramatic_tension change (some ctx) =
      (true, some { ctx with story_state := { ctx.story_state with
          dramatic_tension :=
            max 0 (min 1 (ctx.story_state.dramatic_tension + change)) } })) ∧
    (0 ≤ max 0 (min 1 (ctx.story_state.dramatic_tension + change)) ∧
      max 0 (min 1 (ctx.story_state.dramatic_tension + change)) ≤ 1) ∧
    ((0 ≤ tension ∧ tension ≤ 1) →
      set_dramatic_tension tension (some ctx) =
        (true, some { ctx with story_state := { ctx.story_state with
            dramatic_tension := tension } })) ∧
    (¬ (0 ≤ tension ∧ tension ≤ 1) →
      set_dramatic_tension tension (some ctx) = (false, some ctx)) := by
  refine ⟨rfl, ⟨le_max_left 0 _, max_le zero_le_one (min_le_left 1 _)⟩,
    fun h => ?_, fun hn => ?_⟩
  · simp only [set_dramatic_tension]
    rw [if_neg (not_not_intro h)]
  · simp only [set_dramatic_tension]
    rw [if_pos hn]

/-- Witness for the amended C8 at concrete inputs: `set_tension 1` stores 1
and succeeds; `set_tension 2` is rejected with the context unchanged. -/
theorem tension_ops_clamp_or_reject_witness :
    (set_dramatic_tension 1 (some exCtx) =
      (true, some { exCtx with story_state := { exCtx.story_state with
          dramatic_tension := 1 } })) ∧
    set_dramatic_tension 2 (some exCtx) = (false, some exCtx) :=
  ⟨(tension_ops_clamp_or_reject exCtx 0 1).2.2.1 (by decide),
    (tension_ops_clamp_or_reject exCtx 0 2).2.2.2 (by decide)⟩

/-- C6: a validated `manage_character_turn` call succeeds, raises
`dramatic_tension` by exactly the interaction-type table amount clamped at
1.0 — the table being revelation 0.25, confrontation 0.30, accusation 0.35,
confession 0.40, dialogue 0.05, investigation 0.10 and 0.05 for anything
else — and raises `character_arc_progress` by 0.15 capped at 1.0 exactly
when the interaction type is revelation, confrontation or confession. -/
theorem manage_character_turn_tension_table (ctx : MovieContext)
    (character_id interaction_type : String)
    (target_character : Option String) (scene : SceneContext)
    (hscene : ctx.current_scene = some scene)
    (hchar : (ctx.characters.lookup character_id).isSome = true)
    (hpresent : scene.present_characters.contains character_id = true)
    (htarget : target_ok ctx scene target_character) :
    ((manage_character_turn ctx character_id interaction_type
        target_character).1.success = true ∧
      (manage_character_turn ctx character_id interaction_type
          target_character).2.story_state.dramatic_tension =
        min 1 (ctx.story_state.dramatic_tension
          + tension_updates interaction_type) ∧
      (manage_character_turn ctx character_id interaction_type
          target_character).2.story_state.character_arc_progress =
        (if interaction_type = "revelation" ∨ interaction_type = "confrontation"
            ∨ interaction_type = "confession" then
          min 1 (ctx.story_state.character_arc_progress + (15/100))
        else ctx.story_state.character_arc_progress)) ∧
    (tension_updates "revelation" = 25/100 ∧
      tension_updates "confrontation" = 3/10 ∧
      tension_updates "accusation" = 35/100 ∧
      tension_updates "confession" = 4/10 ∧
      tension_updates "dialogue" = 5/100 ∧
      tension_updates "investigation" = 1/10 ∧
      ∀ it : String, it ≠ "revelation" → it ≠ "confrontation" →
        it ≠ "accusation" → it ≠ "confession" → it ≠ "dialogue" →
        it ≠ "investigation" → tension_updates it = 5/100) := by
  constructor
  · obtain ⟨v, hv⟩ := Option.isSome_iff_exists.mp hchar
    have hnone : (ctx.characters.lookup character_id).isNone = false := by
      rw [hv]; rfl
    simp only [manage_character_turn, hscene, hnone]
    rw [if_neg (by simp), if_neg (not_not_intro hpresent)]
    by_cases hit : interaction_type = "revelation"
        ∨ interaction_type = "confrontation"
        ∨ interaction_type = "confession"
    · rcases target_character with _ | t
      · simp [hit, TurnResult.success]
      · simp only [target_ok] at htarget
        by_cases hte : t = ""
        · subst hte
          simp [hit, TurnResult.success]
        · rcases htarget with hemp | ⟨hts, htp⟩
          · exact absurd hemp hte
          · obtain ⟨w, hw⟩ := Option.isSome_iff_exists.mp hts
            have hn2 : (ctx.characters.lookup t).isNone = false := by
              rw [hw]; rfl
            have htm : t ∈ scene.present_characters := by simpa using htp
            simp [hit, hte, hn2, htm, TurnResult.success]
    · rcases target_character with _ | t
      · simp [hit, TurnResult.success]
      · simp only [target_ok] at htarget
        by_cases hte : t = ""
        · subst hte
          simp [hit, TurnResult.success]
        · rcases htarget with hemp | ⟨hts, htp⟩
          · exact absurd hemp hte
          · obtain ⟨w, hw⟩ := Option.isSome_iff_exists.mp hts
            have hn2 : (ctx.characters.lookup t).isNone = false := by
              rw [hw]; rfl
            have htm : t ∈ scene.present_characters := by simpa using htp
            simp [hit, hte, hn2, htm, TurnResult.success]
  · refine ⟨rfl, rfl, rfl, rfl, rfl, rfl, fun it h1 h2 h3 h4 h5 h6 => ?_⟩
    simp only [tension_updates]
    rw [if_neg h1, if_neg h2, if_neg h3, if_neg h4, if_neg h5, if_neg h6]

/-- Witness for C6 at a concrete input: `alice` takes a `confession` turn
addressed at `bob` in `exCtx`'s active scene. -/
theorem manage_character_turn_tension_table_witness :
    ((manage_character_turn exCtx "alice" "confession"
        (some "bob")).1.success = true ∧
      (manage_character_turn exCtx "alice" "confession"
          (some "bob")).2.story_state.dramatic_tension =
        min 1 (exCtx.story_state.dramatic_tension + tension_updates "confession") ∧
      (manage_character_turn exCtx "alice" "confession"
          (some "bob")).2.story_state.character_arc_progress =
        (if "confession" = "revelation" ∨ "confession" = "confrontation"
            ∨ "confession" = "confession" then
          min 1 (exCtx.story_state.character_arc_progress + (15/100))
        else exCtx.story_state.character_arc_progress)) ∧
    (tension_updates "revelation" = 25/100 ∧
      tension_updates "confrontation" = 3/10 ∧
      tension_updates "accusation" = 35/100 ∧
      tension_updates "confession" = 4/10 ∧
      tension_updates "dialogue" = 5/100 ∧
      tension_updates "investigation" = 1/10 ∧
      ∀ it : String, it ≠ "revelation" → it ≠ "confrontation" →
        it ≠ "accusation" → it ≠ "confession" → it ≠ "dialogue" →
        it ≠ "investigation" → tension_updates it = 5/100) :=
  manage_character_turn_tension_table exCtx "alice" "confession" (some "bob")
    exScene rfl (by decide) (by decide)
    (Or.inr ⟨by decide, by decide⟩)

/-- Witness for C10 at a concrete input: `exCtxUnknownBeat` sits at the beat
`"nowhere"`, which is not in its progression, and the call succeeds moving
to the first beat. -/
theorem advance_story_beat_unknown_beat_restarts_witness :
    advance_story_beat (some exCtxUnknownBeat) =
      (true, some (advance_to exCtxUnknownBeat
        ((get_story_progression (some exCtxUnknownBeat)).getD 0 ""))) :=
  advance_story_beat_unknown_beat_restarts exCtxUnknownBeat (by decide)

/-- Reading an updated store: the updated directed pair holds the clamped
sum, every other pair is unchanged. -/
theorem get_update_relationship (store : RelationshipStore)
    (f t a b : String) (c : ℚ) :
    get_relationship (update_relationship store f t c) a b =
      if f = a ∧ t = b then max (-1) (min 1 (get_relationship store f t + c))
      else get_relationship store a b := by
  by_cases h : f = a ∧ t = b
  · obtain ⟨h1, h2⟩ := h
    subst h1; subst h2
    simp [update_relationship, get_relationship, List.lookup]
  · rw [if_neg h]
    simp only [update_relationship, get_relationship, List.lookup]
    have hb : ((a, b) == (f, t)) = false := by
      rw [beq_eq_false_iff_ne]
      intro he
      rw [Prod.mk.injEq] at he
      exact h ⟨he.1.symm, he.2.symm⟩
    rw [hb]

/-- Folding relationship updates preserves the bounds invariant on every
directed pair. -/
theorem relationship_foldl_bounds (updates : List (String × String × ℚ)) :
    ∀ store : RelationshipStore,
      (∀ a b, -1 ≤ get_relationship store a b ∧ get_relationship store a b ≤ 1) →
      ∀ a b,
        -1 ≤ get_relationship (updates.foldl
            (fun s u => update_relationship s u.1 u.2.1 u.2.2) store) a b ∧
        get_relationship (updates.foldl
            (fun s u => update_relationship s u.1 u.2.1 u.2.2) store) a b ≤ 1 := by
  induction updates with
  | nil => exact fun store h a b => h a b
  | cons u us ih =>
    intro store h a b
    refine ih _ ?_ a b
    intro x y
    rw [get_update_relationship]
    by_cases hc : u.1 = x ∧ u.2.1 = y
    · rw [if_pos hc]
      exact ⟨le_max_left _ _, max_le (by norm_num) (min_le_left _ _)⟩
    · rw [if_neg hc]
      exact h x y

/-- Folding relationship updates leaves a never-updated directed pair at its
original reading. -/
theorem relationship_foldl_untouched (updates : List (String × String × ℚ)) :
    ∀ store : RelationshipStore, ∀ a b : String,
      (∀ u ∈ updates, ¬ (u.1 = a ∧ u.2.1 = b)) →
      get_relationship (updates.foldl
          (fun s u => update_relationship s u.1 u.2.1 u.2.2) store) a b =
        get_relationship store a b := by
  induction updates with
  | nil => exact fun store a b _ => rfl
  | cons u us ih =>
    intro store a b h
    have h1 : ¬ (u.1 = a ∧ u.2.1 = b) := h u (List.mem_cons_self u us)
    have h2 : ∀ w ∈ us, ¬ (w.1 = a ∧ w.2.1 = b) :=
      fun w hw => h w (List.mem_cons_of_mem u hw)
    rw [List.foldl_cons, ih _ a b h2, get_update_relationship, if_neg h1]

/-- C9: after any sequence of relationship updates applied to the fresh
store, every directed relationship score lies within `[-1, 1]`, and a
directed pair never named by an update reads as exactly `0.0` rather than
failing. -/
theorem relationship_scores_clamped_and_default_zero
    (updates : List (String × String × ℚ)) (a b : String) :
    (-1 ≤ get_relationship (applyRelationshipUpdates updates) a b ∧
      get_relationship (applyRelationshipUpdates updates) a b ≤ 1) ∧
    ((∀ u ∈ updates, ¬ (u.1 = a ∧ u.2.1 = b)) →
      get_relationship (applyRelationshipUpdates updates) a b = 0) := by
  constructor
  · refine relationship_foldl_bounds updates [] (fun x y => ?_) a b
    have h0 : get_relationship ([] : RelationshipStore) x y = 0 := rfl
    rw [h0]
    norm_num
  · intro h
    rw [applyRelationshipUpdates, relationship_foldl_untouched updates [] a b h]
    rfl

/-- Witness for C9 at a concrete input: after the single update
`("a", "b", +5)`, the never-updated pair `("c", "d")` reads `0.0` and is
within bounds. -/
theorem relationship_scores_clamped_and_default_zero_witness :
    (-1 ≤ get_relationship (applyRelationshipUpdates [("a", "b", 5)]) "c" "d" ∧
      get_relationship (applyRelationshipUpdates [("a", "b", 5)]) "c" "d" ≤ 1) ∧
    get_relationship (applyRelationshipUpdates [("a", "b", 5)]) "c" "d" = 0 :=
  ⟨(relationship_scores_clamped_and_default_zero [("a", "b", 5)] "c" "d").1,
    (relationship_scores_clamped_and_default_zero [("a", "b", 5)] "c" "d").2
      (by decide)⟩

/-- The event log grows by one response per loop iteration. -/
theorem loopEvents_succ (resp : Nat → String) (n : Nat) :
    loopEvents resp n ++ [resp n] = loopEvents resp (n + 1) := by
  simp [loopEvents, List.range_succ]

/-- Invariant of the coordinator loop: started at `count` on the trace state
and log, the loop performs at most `fuel` more interactions, stops no later
than the end of the first iteration whose break test fires, and every
iteration it ran past had a false break test. -/
theorem run_ai_loopAux_spec (resp : Nat → String) (ss : StoryState) :
    ∀ (fuel count : Nat),
      (run_ai_loopAux resp fuel count (loopState resp ss count)
          (loopEvents resp count)).1 ≤ count + fuel ∧
      (∀ n, count ≤ n →
        should_story_conclude (loopState resp ss (n + 1))
            (lastN 3 (loopEvents resp (n + 1))) n = true →
        (run_ai_loopAux resp fuel count (loopState resp ss count)
            (loopEvents resp count)).1 ≤ n + 1) ∧
      (∀ n, count ≤ n →
        n + 1 < (run_ai_loopAux resp fuel count (loopState resp ss count)
            (loopEvents resp count)).1 →
        should_story_conclude (loopState resp ss (n + 1))
            (lastN 3 (loopEvents resp (n + 1))) n = false) := by
  intro fuel
  induction fuel with
  | zero =>
    intro count
    refine ⟨by simp [run_ai_loopAux], fun n hn _ => ?_, fun n hn hlt => ?_⟩
    · simp only [run_ai_loopAux]
      omega
    · simp only [run_ai_loopAux] at hlt
      omega
  | succ fuel ih =>
    intro count
    have hs : (analyze_ai_response_and_update_story (resp count)
        (loopState resp ss count)).1 = loopState resp ss (count + 1) := rfl
    by_cases hcon : should_story_conclude (loopState resp ss (count + 1))
        (lastN 3 (loopEvents resp (count + 1))) count = true
    · have hrun : run_ai_loopAux resp (fuel + 1) count
          (loopState resp ss count) (loopEvents resp count) =
            (count + 1, loopState resp ss (count + 1)) := by
        simp only [run_ai_loopAux, hs, loopEvents_succ]
        rw [if_pos hcon]
      refine ⟨?_, fun n hn _ => ?_, fun n hn hlt => ?_⟩
      · rw [hrun]; omega
      · rw [hrun]; omega
      · rw [hrun] at hlt; omega
    · have hrun : run_ai_loopAux resp (fuel + 1) count
          (loopState resp ss count) (loopEvents resp count) =
            run_ai_loopAux resp fuel (count + 1)
              (loopState resp ss (count + 1)) (loopEvents resp (count + 1)) := by
        simp only [run_ai_loopAux, hs, loopEvents_succ]
        rw [if_neg hcon]
      obtain ⟨ih1, ih2, ih3⟩ := ih (count + 1)
      refine ⟨?_, fun n hn hc => ?_, fun n hn hlt => ?_⟩
      · rw [hrun]; omega
      · rw [hrun]
        rcases Nat.eq_or_lt_of_le hn with heq | hlt'
        · subst heq
          exact absurd hc hcon
        · exact ih2 n hlt' hc
      · rw [hrun] at hlt
        rcases Nat.eq_or_lt_of_le hn with heq | hlt'
        · subst heq
          exact Bool.eq_false_iff.mpr hcon
        · exact ih3 n hlt' hlt

/-- C7: the coordinator loop always terminates — it performs at most
`max_interactions` interactions; it ends at the end of the first iteration
whose break test fires and not before (iterations it ran past had a false
break test); and the break test fires as soon as
`resolution_readiness ≥ 0.8`, or as soon as `conflict_progress ≥ 0.9` and
`character_arc_progress ≥ 0.7` hold together once the elapsed-interaction
floor of 15 is reached — whichever comes first. -/
theorem ai_loop_terminates_and_exits_early (resp : Nat → String)
    (max_interactions : Nat) (ss : StoryState) :
    (run_ai_interaction_loop resp max_interactions ss).1 ≤ max_interactions ∧
    (∀ n, loopConcludes resp ss n = true →
      (run_ai_interaction_loop resp max_interactions ss).1 ≤ n + 1) ∧
    (∀ n, n + 1 < (run_ai_interaction_loop resp max_interactions ss).1 →
      loopConcludes resp ss n = false) ∧
    (∀ (st : StoryState) (ev : List String) (n : Nat),
      (8/10 : ℚ) ≤ st.resolution_readiness →
      should_story_conclude st ev n = true) ∧
    (∀ (st : StoryState) (ev : List String) (n : Nat),
      (9/10 : ℚ) ≤ st.conflict_progress →
      (7/10 : ℚ) ≤ st.character_arc_progress → 15 ≤ n →
      should_story_conclude st ev n = true) := by
  obtain ⟨h1, h2, h3⟩ := run_ai_loopAux_spec resp ss max_interactions 0
  refine ⟨by simpa [run_ai_interaction_loop] using h1,
    fun n hc => ?_, fun n hlt => ?_,
    fun st ev n h => ?_, fun st ev n hc ha hn => ?_⟩
  · simp only [loopConcludes] at hc
    simpa [run_ai_interaction_loop] using h2 n (Nat.zero_le n) hc
  · simp only [loopConcludes]
    simp only [run_ai_interaction_loop] at hlt
    exact h3 n (Nat.zero_le n) hlt
  · simp only [should_story_conclude]
    rw [if_pos h]
  · simp only [should_story_conclude]
    by_cases h0 : (8/10 : ℚ) ≤ st.resolution_readiness
    · rw [if_pos h0]
    · rw [if_neg h0, if_pos ⟨hc, ha, hn⟩]

/-- Evaluation of `_analyze_ai_response_and_update_story` on the response
`"i confess"`: the first keyword bucket matches, bumping
`resolution_readiness` by 0.3 and `character_arc_progress` by 0.1. -/
theorem analyze_confess (ss : StoryState) :
    analyze_ai_response_and_update_story "i confess" ss =
      ({ ss with resolution_readiness := min 1 (ss.resolution_readiness + (3/10)), character_arc_progress := min 1 (ss.character_arc_progress + (1/10)) },
        "major resolution advancement") := by
  have hc : (["arrest", "guilty", "confess", "evidence"].any
      (fun word => strContains (strToLower "i confess") word)) = true := by decide
  simp [analyze_ai_response_and_update_story, hc]

/-- With every response `"i confess"`, the break test fires at iteration 2:
after three responses `resolution_readiness` is `0.9 ≥ 0.8`. -/
theorem loopConcludes_confess :
    loopConcludes (fun _ => "i confess") exStoryState 2 = true := by
  have hres : ∀ n,
      (loopState (fun _ => "i confess") exStoryState (n + 1)).resolution_readiness =
        min 1 ((loopState (fun _ => "i confess")
          exStoryState n).resolution_readiness + (3/10)) := by
    intro n
    show ((analyze_ai_response_and_update_story "i confess"
        (loopState (fun _ => "i confess") exStoryState n)).1).resolution_readiness = _
    rw [analyze_confess]
  have h0 : (loopState (fun _ => "i confess") exStoryState 0).resolution_readiness
      = 0 := rfl
  have hcond : (8/10 : ℚ) ≤
      (loopState (fun _ => "i confess") exStoryState 3).resolution_readiness := by
    rw [hres 2, hres 1, hres 0, h0]
    norm_num
  simp only [loopConcludes, should_story_conclude]
  rw [if_pos hcond]

/-- Witness for C7 at a concrete input: with every response `"i confess"`
and a cap of 25 interactions, the loop performs at most 25 interactions and
in fact at most 3, since the break test fires at iteration 2. -/
theorem ai_loop_terminates_and_exits_early_witness :
    (run_ai_interaction_loop (fun _ => "i confess") 25 exStoryState).1 ≤ 25 ∧
    (run_ai_interaction_loop (fun _ => "i confess") 25 exStoryState).1 ≤ 2 + 1 :=
  ⟨(ai_loop_terminates_and_exits_early (fun _ => "i confess") 25 exStoryState).1,
    (ai_loop_terminates_and_exits_early (fun _ => "i confess") 25
      exStoryState).2.1 2 loopConcludes_confess⟩

end MovieSim
